import Mathlib

/-!
Verification of the pyRevit diagnostic script
`extensions/pyRevitDevTools.extension/pyRevitDev.tab/Debug.panel/Unit
Tests.pulldown/Test Cached Engines.pushbutton/script.py`.

The script is a straight-line sequence of print statements:
1. `for engine_id in EXEC_PARAMS.engine_mgr.EngineDict: print(engine_id)`
2. `print('Running in reused engine?\n{...}'.format('Yes' if __cachedengine__ else 'No'))`
3. `print PyRevitOutputMgr.get_all_outputs()`

We embed it as explicit state passing: the host-injected values form an
immutable `HostState`, and each statement appends printed records to a
trace.  A second embedding (`runScriptExc`) makes every host access
fallible, to reason about fault propagation.
-/

/-- Model of a Python runtime value, as far as the script observes one:
the cache-hit indicator `__cachedengine__` is tested only for truthiness
by the conditional expression on line 9 of the script. -/
inductive PyValue where
  | none
  | bool (b : Bool)
  | int (n : Int)
  | str (s : String)
  deriving DecidableEq, Repr

/-- Python truthiness, as applied by `if __cachedengine__`:
`None`, `False`, `0` and `''` are falsy, everything else is truthy. -/
def PyValue.truthy : PyValue → Bool
  | .none => false
  | .bool b => b
  | .int n => decide (n ≠ 0)
  | .str s => decide (s ≠ "")

/-- The conditional expression `'Yes' if __cachedengine__ else 'No'`
from line 9 of the script. -/
def reuseChoice (v : PyValue) : String :=
  if v.truthy then "Yes" else "No"

/-- The full formatted record printed by lines 8-9:
`'Running in reused engine?\n{...}'.format(reuseChoice)`. -/
def reuseMessage (v : PyValue) : String :=
  "Running in reused engine?\n" ++ reuseChoice v

/-- The host-injected values the script reads, consumed read-only:
`EXEC_PARAMS.engine_mgr.EngineDict` as an association list whose order is
the dict's iteration order (keys are engine identifiers, values of type
`α` are the host's engine instances), the `__cachedengine__` indicator,
and the default textual representation of the value returned by
`PyRevitOutputMgr.get_all_outputs()`. -/
structure HostState (α : Type) where
  engineDict : List (String × α)
  cachedengine : PyValue
  allOutputsRepr : String

/-- Execution state of the script: the (immutable) host plus the trace of
records printed so far, in order. -/
structure ScriptState (α : Type) where
  host : HostState α
  printed : List String

/-- One `print` statement: append one record to the trace. -/
def ScriptState.emit {α : Type} (s : ScriptState α) (line : String) : ScriptState α :=
  { s with printed := s.printed ++ [line] }

/-- Lines 5-6: `for engine_id in EXEC_PARAMS.engine_mgr.EngineDict:
print(engine_id)`.  Iterating a dict yields its keys, in iteration
order; each is printed. -/
def stmtEngineLoop {α : Type} (s : ScriptState α) : ScriptState α :=
  s.host.engineDict.foldl (fun st kv => st.emit kv.fst) s

/-- Lines 8-9: print the formatted reuse message. -/
def stmtPrintReuse {α : Type} (s : ScriptState α) : ScriptState α :=
  s.emit (reuseMessage s.host.cachedengine)

/-- Line 14: `print PyRevitOutputMgr.get_all_outputs()` prints the
default textual representation of the accessor's result. -/
def stmtPrintOutputs {α : Type} (s : ScriptState α) : ScriptState α :=
  s.emit s.host.allOutputsRepr

/-- The whole script body, statements in source order.  The assignment
`__context__ = 'zerodoc'` on line 1 binds a script-local metadata name
and touches no host entity and no output, so it has no effect on this
state. -/
def runScriptState {α : Type} (s : ScriptState α) : ScriptState α :=
  stmtPrintOutputs (stmtPrintReuse (stmtEngineLoop s))

/-- The trace of records a run prints, starting from an empty trace. -/
def scriptPrinted {α : Type} (h : HostState α) : List String :=
  (runScriptState { host := h, printed := [] }).printed

/-- The byte stream the run writes: each printed record followed by the
newline `print` appends. -/
def renderOutput (lines : List String) : String :=
  String.join (lines.map (fun l => l ++ "\n"))

/-- A fault raised by a host access, as the spec's error-handling section
classifies them. -/
inductive Fault where
  | missingGlobal (name : String)
  | wrongType (descr : String)
  | hostApiError (descr : String)
  deriving DecidableEq, Repr

/-- The three fallible host accesses of the script, in source order:
reading `EXEC_PARAMS.engine_mgr.EngineDict` (lines 4-5), looking up
`__cachedengine__` (line 9), and importing `PyRevitOutputMgr` and calling
`get_all_outputs()` (lines 12-14, merged into one access since the
script does nothing between them). -/
structure HostAccess (α : Type) where
  engineDictAcc : Except Fault (List (String × α))
  cachedengineAcc : Except Fault PyValue
  getAllOutputsAcc : Except Fault String

/-- The script run against fallible host accesses.  There is no
`try`/`except` anywhere in the source, so the first failing access ends
the run with that fault; the records already printed remain.  Returns
the printed trace and the fault the run terminated with, if any. -/
def runScriptExc {α : Type} (h : HostAccess α) : List String × Option Fault :=
  match h.engineDictAcc with
  | .error f => ([], some f)
  | .ok d =>
    let pre := d.map Prod.fst
    match h.cachedengineAcc with
    | .error f => (pre, some f)
    | .ok c =>
      match h.getAllOutputsAcc with
      | .error f => (pre ++ [reuseMessage c], some f)
      | .ok o => (pre ++ [reuseMessage c, o], none)

lemma foldl_emit_printed {α : Type} (l : List (String × α)) (s : ScriptState α) :
    (l.foldl (fun st kv => st.emit kv.fst) s).printed = s.printed ++ l.map Prod.fst := by
  induction l generalizing s with
  | nil => simp
  | cons kv tl ih =>
      rw [List.foldl_cons, ih]
      simp [ScriptState.emit]

lemma foldl_emit_host {α : Type} (l : List (String × α)) (s : ScriptState α) :
    (l.foldl (fun st kv => st.emit kv.fst) s).host = s.host := by
  induction l generalizing s with
  | nil => rfl
  | cons kv tl ih => simpa [ScriptState.emit] using ih (s.emit kv.fst)

lemma scriptPrinted_eq {α : Type} (h : HostState α) :
    scriptPrinted h =
      h.engineDict.map Prod.fst ++ [reuseMessage h.cachedengine, h.allOutputsRepr] := by
  have hh := foldl_emit_host h.engineDict ({ host := h, printed := [] } : ScriptState α)
  have hp := foldl_emit_printed h.engineDict ({ host := h, printed := [] } : ScriptState α)
  simp only [scriptPrinted, runScriptState, stmtPrintOutputs, stmtPrintReuse,
    stmtEngineLoop, ScriptState.emit] at hh hp ⊢
  simp [hp, hh]

/-- C1: for every non-empty engine registry, the records printed by the
loop over `EXEC_PARAMS.engine_mgr.EngineDict` — the first
`engineDict.length` records of the run's trace — are exactly the
registry's key sequence, in the registry's own iteration order. -/
theorem engine_loop_prints_keys {α : Type} (h : HostState α)
    (hne : h.engineDict ≠ []) :
    (scriptPrinted h).take h.engineDict.length = h.engineDict.map Prod.fst := by
  rw [scriptPrinted_eq]
  rw [show h.engineDict.length = (h.engineDict.map Prod.fst).length by simp]
  exact List.take_left _ _

/-- Witness for C1 at a concrete one-entry registry. -/
theorem engine_loop_prints_keys_witness :
    (scriptPrinted ({ engineDict := [("IPY277", 0)],
                      cachedengine := .bool true,
                      allOutputsRepr := "[]" } : HostState Nat)).take 1 = ["IPY277"] := by
  have h := engine_loop_prints_keys
    ({ engineDict := [("IPY277", 0)],
       cachedengine := .bool true,
       allOutputsRepr := "[]" } : HostState Nat) (by simp)
  simpa using h

/-- C2: the conditional expression of line 9 evaluates to exactly
`"Yes"` when `__cachedengine__` is truthy and exactly `"No"` when it is
falsy, for every possible indicator value. -/
theorem reuse_choice_yes_no (v : PyValue) :
    (reuseChoice v = "Yes" ↔ v.truthy = true)
      ∧ (reuseChoice v = "No" ↔ v.truthy = false) := by
  unfold reuseChoice
  cases hv : v.truthy <;> simp

/-- C3: the last record the run prints is exactly the textual
representation of the result of the single `get_all_outputs()` call,
unmodified. -/
theorem outputs_printed_verbatim {α : Type} (h : HostState α) :
    (scriptPrinted h).getLast? = some h.allOutputsRepr := by
  rw [scriptPrinted_eq]
  simp

/-- C4: the run's trace is exactly the registry's keys (one record per
key, in order), then the reuse message, then the output-manager dump,
and nothing else; the fallible-access run agrees whenever every access
succeeds. -/
theorem script_output_order {α : Type} (h : HostState α) :
    scriptPrinted h =
        h.engineDict.map Prod.fst ++ [reuseMessage h.cachedengine] ++ [h.allOutputsRepr]
      ∧ runScriptExc { engineDictAcc := .ok h.engineDict,
                       cachedengineAcc := .ok h.cachedengine,
                       getAllOutputsAcc := .ok h.allOutputsRepr } =
        (scriptPrinted h, none) := by
  constructor
  · rw [scriptPrinted_eq]; simp
  · rw [scriptPrinted_eq]; simp [runScriptExc]

/-- C5: the script never writes to the host: the engine registry, the
cache-hit indicator and the output-manager representation are all
unchanged by a full run, whatever trace the run starts from. -/
theorem script_host_readonly {α : Type} (s : ScriptState α) :
    (runScriptState s).host = s.host := by
  have hh := foldl_emit_host s.host.engineDict s
  simp only [runScriptState, stmtPrintOutputs, stmtPrintReuse, stmtEngineLoop,
    ScriptState.emit] at hh ⊢
  simp [hh]

/-- C6: two registries with the same key sequence but arbitrarily
different engine-instance values (even of different types) yield
identical traces, holding the indicator and the output representation
fixed: the registry is queried for its keys only. -/
theorem output_ignores_engine_values {α β : Type}
    (d₁ : List (String × α)) (d₂ : List (String × β)) (c : PyValue) (o : String)
    (hkeys : d₁.map Prod.fst = d₂.map Prod.fst) :
    scriptPrinted ({ engineDict := d₁, cachedengine := c, allOutputsRepr := o } :
        HostState α) =
      scriptPrinted ({ engineDict := d₂, cachedengine := c, allOutputsRepr := o } :
        HostState β) := by
  rw [scriptPrinted_eq, scriptPrinted_eq]
  simp [hkeys]

/-- Witness for C6 at the same key sequence with values of different types. -/
theorem output_ignores_engine_values_witness :
    scriptPrinted ({ engineDict := [("CPY385", 7)],
                     cachedengine := .none,
                     allOutputsRepr := "[]" } : HostState Nat) =
      scriptPrinted ({ engineDict := [("CPY385", "engine")],
                       cachedengine := .none,
                       allOutputsRepr := "[]" } : HostState String) :=
  output_ignores_engine_values [("CPY385", 7)] [("CPY385", "engine")] .none "[]" (by simp)

/-- C7: a run of the fallible embedding terminates with fault `f`
exactly when `f` is what the first failing host access raised — the
script catches, retries and transforms nothing. -/
theorem faults_propagate_unhandled {α : Type} (h : HostAccess α) (f : Fault) :
    (runScriptExc h).snd = some f ↔
      (h.engineDictAcc = .error f
        ∨ ((∃ d, h.engineDictAcc = .ok d) ∧ h.cachedengineAcc = .error f)
        ∨ ((∃ d, h.engineDictAcc = .ok d) ∧ (∃ c, h.cachedengineAcc = .ok c)
            ∧ h.getAllOutputsAcc = .error f)) := by
  rcases h with ⟨ed, ca, oa⟩
  cases ed <;> cases ca <;> cases oa <;> simp [runScriptExc]

/-- C8: the script terminates after exactly one pass: the trace of a run
over a registry of `n` entries has exactly `n + 2` records — one per
registry key plus the two trailing prints, nothing repeated. -/
theorem script_terminates_linear {α : Type} (h : HostState α) :
    (scriptPrinted h).length = h.engineDict.length + 2 := by
  rw [scriptPrinted_eq]
  simp

/-- C9: with an empty registry the loop prints nothing, and the reuse
message and the output dump are still printed, in that order. -/
theorem empty_registry_still_prints {α : Type} (c : PyValue) (o : String) :
    scriptPrinted ({ engineDict := [], cachedengine := c, allOutputsRepr := o } :
        HostState α) = [reuseMessage c, o] := by
  rw [scriptPrinted_eq]
  simp

/-- C10: the script is deterministic: two hosts agreeing on the registry,
the indicator and the accessor result produce byte-for-byte identical
output streams. -/
theorem script_deterministic {α : Type} (h₁ h₂ : HostState α)
    (hd : h₁.engineDict = h₂.engineDict)
    (hc : h₁.cachedengine = h₂.cachedengine)
    (ho : h₁.allOutputsRepr = h₂.allOutputsRepr) :
    renderOutput (scriptPrinted h₁) = renderOutput (scriptPrinted h₂) := by
  rw [scriptPrinted_eq, scriptPrinted_eq, hd, hc, ho]

/-- Witness for C10 at concrete equal hosts. -/
theorem script_deterministic_witness :
    renderOutput (scriptPrinted ({ engineDict := [("IPY277", 1)],
                                   cachedengine := .bool false,
                                   allOutputsRepr := "[]" } : HostState Nat)) =
      renderOutput (scriptPrinted ({ engineDict := [("IPY277", 1)],
                                     cachedengine := .bool false,
                                     allOutputsRepr := "[]" } : HostState Nat)) :=
  script_deterministic _ _ rfl rfl rfl
